import Mathlib

/-!
# Verification of json-logging-python

A shallow embedding of the core behaviour of the `json-logging` library:

* the framework-support registry of `json_logging/frameworks.py`
  (`register_framework_support` and the `_framework_support_map` dictionary),
* the JSON log formatter, correlation-id resolution and request
  instrumentation described in the specification (the corresponding modules
  are not part of the source tree; those definitions are modelled from the
  spec and are marked as such).

Python strings are Lean `String`s, Python `dict`s keyed by strings are
association lists updated in place, Python exceptions are `Except.error`,
and the global mutable state (`_framework_support_map`, the debug flag, the
correlation context) is passed explicitly.
-/

namespace JsonLogging

/-! ## ASCII lowercasing (Python `str.lower()` restricted to ASCII) -/

/-- Lower-case a single character: ASCII `A`–`Z` maps to `a`–`z`, everything
else is fixed.  This models what Python's `str.lower()` does on the ASCII
framework names that occur in the library. -/
def lowerChar (c : Char) : Char :=
  if 65 ≤ c.toNat ∧ c.toNat ≤ 90 then Char.ofNat (c.toNat + 32) else c

/-- Models `name.lower()` on ASCII strings. -/
def pyLower (s : String) : String := ⟨s.data.map lowerChar⟩

theorem char_toNat_ofNat (n : Nat) (h : n.isValidChar) : (Char.ofNat n).toNat = n := by
  unfold Char.ofNat
  rw [dif_pos h]
  rfl

theorem lowerChar_idem (c : Char) : lowerChar (lowerChar c) = lowerChar c := by
  unfold lowerChar
  split
  · rename_i h
    have hv : (c.toNat + 32).isValidChar := by
      constructor; omega
    rw [char_toNat_ofNat _ hv]
    rw [if_neg (by omega)]
  · rfl

theorem pyLower_idem (s : String) : pyLower (pyLower s) = pyLower s := by
  unfold pyLower
  simp only [List.map_map]
  congr 1
  apply List.map_congr_left
  intro c _
  exact lowerChar_idem c

theorem pyLower_eq_empty (s : String) : pyLower s = "" ↔ s = "" := by
  constructor
  · intro h
    have h2 : s.data.map lowerChar = [] := congrArg String.data h
    rcases s with ⟨d⟩
    cases d with
    | nil => rfl
    | cons a t => simp at h2
  · intro h; subst h; rfl

/-! ## Python classes and the abstract base classes of `json_logging`

`RequestAdapter`, `ResponseAdapter`, `AppRequestInstrumentationConfigurator`
and `FrameworkConfigurator` are the abstract base classes a framework
integration subclasses.  A Python class is modelled by the set of those
bases it (transitively) derives from; `issubclass` is membership. -/

inductive ABC where
  | requestAdapter
  | responseAdapter
  | appRequestInstrumentationConfigurator
  | frameworkConfigurator
deriving DecidableEq, Repr

/-- A Python class, abstracted to the `json_logging` base classes it
derives from. -/
structure PyClass where
  bases : List ABC
deriving DecidableEq, Repr

/-- Python `issubclass(c, b)` for the base classes of interest. -/
def issubclass (c : PyClass) (b : ABC) : Bool := c.bases.contains b

/-- Modelled from the spec: `util.validate_subclass` (in `json_logging/util.py`,
not under `src/`) — per §7 an invalid adapter registration is a configuration
error, "fatal at startup, surfaced immediately": it raises when the given
class is not a subclass of the expected base class, and does nothing
otherwise. -/
def validate_subclass (c : PyClass) (b : ABC) : Except String Unit :=
  if issubclass c b then Except.ok () else Except.error "subclass validation failed"

/-! ## The framework-support registry (`json_logging/frameworks.py`) -/

/-- One entry of `_framework_support_map`: the dictionary built at
`frameworks.py:31`–`36`. -/
structure FrameworkEntry where
  app_configurator : Option PyClass
  app_request_instrumentation_configurator : PyClass
  request_adapter_class : PyClass
  response_adapter_class : PyClass
deriving DecidableEq, Repr

/-- The global `_framework_support_map` dictionary, as an association list. -/
abbrev FrameworkSupportMap := List (String × FrameworkEntry)

/-- Python `d[k] = v` on a string-keyed dict: replace the binding in place if
the key is present, otherwise append it. -/
def dictSet {α : Type} : List (String × α) → String → α → List (String × α)
  | [], k, v => [(k, v)]
  | (k', v') :: rest, k, v =>
    if k' = k then (k, v) :: rest else (k', v') :: dictSet rest k v

/-- Embeds `register_framework_support` (`frameworks.py:8`–`36`).  The global
`_framework_support_map` is passed in as `m` and the updated map is returned;
`debug` is the `ENABLE_JSON_LOGGING_DEBUG` flag (defined outside `src/`,
read from the environment); the returned string list collects the warning
log calls made during the call; a raised Python exception is `Except.error`.
`name` is `Option String` so that both `None` and `""` hit the
`if not name` guard of line 19. -/
def register_framework_support (debug : Bool) (m : FrameworkSupportMap)
    (name : Option String) (app_configurator : Option PyClass)
    (app_request_instrumentation_configurator : PyClass)
    (request_adapter_class : PyClass) (response_adapter_class : PyClass) :
    Except String (FrameworkSupportMap × List String) :=
  match name with
  | none => Except.error "framework name can not be null or empty"
  | some n =>
    if n = "" then Except.error "framework name can not be null or empty"
    else
      match validate_subclass request_adapter_class ABC.requestAdapter with
      | Except.error e => Except.error e
      | Except.ok _ =>
      match validate_subclass response_adapter_class ABC.responseAdapter with
      | Except.error e => Except.error e
      | Except.ok _ =>
      match validate_subclass app_request_instrumentation_configurator
          ABC.appRequestInstrumentationConfigurator with
      | Except.error e => Except.error e
      | Except.ok _ =>
      match (match app_configurator with
             | some c => validate_subclass c ABC.frameworkConfigurator
             | none => Except.ok ()) with
      | Except.error e => Except.error e
      | Except.ok _ =>
        let lname := pyLower n
        let warnings :=
          if debug && (List.lookup lname m).isSome then
            ["Re-register framework " ++ lname]
          else []
        Except.ok (dictSet m lname
          { app_configurator := app_configurator,
            app_request_instrumentation_configurator :=
              app_request_instrumentation_configurator,
            request_adapter_class := request_adapter_class,
            response_adapter_class := response_adapter_class }, warnings)

/-! ### Helper lemmas about the registry -/

theorem dictSet_lookup_self {α : Type} (m : List (String × α)) (k : String) (v : α) :
    List.lookup k (dictSet m k v) = some v := by
  induction m with
  | nil => simp [dictSet, List.lookup]
  | cons hd tl ih =>
    rcases hd with ⟨k', v'⟩
    by_cases h : k' = k
    · subst h
      simp [dictSet, List.lookup]
    · have hb : (k == k') = false := beq_eq_false_iff_ne.mpr (Ne.symm h)
      simp only [dictSet, if_neg h, List.lookup, hb]
      exact ih

theorem dictSet_lookup_other {α : Type} (m : List (String × α)) (k K : String) (v : α)
    (hne : K ≠ k) : List.lookup K (dictSet m k v) = List.lookup K m := by
  have hb : (K == k) = false := beq_eq_false_iff_ne.mpr hne
  induction m with
  | nil =>
    simp [dictSet, List.lookup, hb]
  | cons hd tl ih =>
    rcases hd with ⟨k', v'⟩
    by_cases h : k' = k
    · subst h
      simp only [dictSet, if_pos rfl, List.lookup, hb]
    · simp only [dictSet, if_neg h, List.lookup]
      cases hK : K == k' with
      | true => rfl
      | false => exact ih

/-- Closed form of a successful registration: with a non-empty name and
valid classes, the call stores the new entry under the lower-cased name and
logs a re-registration warning exactly when the debug flag is on and the
name was already registered. -/
theorem register_framework_support_ok (debug : Bool) (m : FrameworkSupportMap)
    (n : String) (ac : Option PyClass) (aric rac resc : PyClass)
    (hn : n ≠ "")
    (h1 : issubclass rac ABC.requestAdapter = true)
    (h2 : issubclass resc ABC.responseAdapter = true)
    (h3 : issubclass aric ABC.appRequestInstrumentationConfigurator = true)
    (h4 : ∀ c, ac = some c → issubclass c ABC.frameworkConfigurator = true) :
    register_framework_support debug m (some n) ac aric rac resc =
      Except.ok (dictSet m (pyLower n)
        { app_configurator := ac,
          app_request_instrumentation_configurator := aric,
          request_adapter_class := rac,
          response_adapter_class := resc },
        if debug && (List.lookup (pyLower n) m).isSome then
          ["Re-register framework " ++ pyLower n]
        else []) := by
  unfold register_framework_support
  dsimp only
  rw [if_neg hn]
  unfold validate_subclass
  rw [if_pos h1, if_pos h2, if_pos h3]
  cases ac with
  | none => rfl
  | some c =>
    dsimp only
    rw [if_pos (h4 c rfl)]

/-- Inversion of a successful registration: the returned map is the input map
with the entry stored under the lower-cased name. -/
theorem register_framework_support_ok_inv (debug : Bool) (m : FrameworkSupportMap)
    (n : String) (ac : Option PyClass) (aric rac resc : PyClass)
    (m' : FrameworkSupportMap) (w : List String)
    (h : register_framework_support debug m (some n) ac aric rac resc = Except.ok (m', w)) :
    m' = dictSet m (pyLower n)
      { app_configurator := ac,
        app_request_instrumentation_configurator := aric,
        request_adapter_class := rac,
        response_adapter_class := resc } := by
  unfold register_framework_support at h
  dsimp only at h
  by_cases hn : n = ""
  · rw [if_pos hn] at h
    exact Except.noConfusion h
  · rw [if_neg hn] at h
    unfold validate_subclass at h
    cases h1 : issubclass rac ABC.requestAdapter with
    | false => simp [h1] at h
    | true =>
      rw [if_pos h1] at h
      cases h2 : issubclass resc ABC.responseAdapter with
      | false => simp [h2] at h
      | true =>
        rw [if_pos h2] at h
        cases h3 : issubclass aric ABC.appRequestInstrumentationConfigurator with
        | false => simp [h3] at h
        | true =>
          rw [if_pos h3] at h
          cases ac with
          | none =>
            dsimp only at h
            injection h with hpair
            simp only [Prod.mk.injEq] at hpair
            exact hpair.1.symm
          | some c =>
            dsimp only at h
            cases h4 : issubclass c ABC.frameworkConfigurator with
            | false => simp [h4] at h
            | true =>
              rw [if_pos h4] at h
              injection h with hpair
              simp only [Prod.mk.injEq] at hpair
              exact hpair.1.symm

/-! ### Sample concrete classes, for witnesses -/

def sampleRequestAdapter : PyClass := { bases := [ABC.requestAdapter] }

def sampleResponseAdapter : PyClass := { bases := [ABC.responseAdapter] }

def sampleInstrConfigurator : PyClass := { bases := [ABC.appRequestInstrumentationConfigurator] }

def sampleFrameworkConfigurator : PyClass := { bases := [ABC.frameworkConfigurator] }

def sampleEntry : FrameworkEntry :=
  { app_configurator := none,
    app_request_instrumentation_configurator := sampleInstrConfigurator,
    request_adapter_class := sampleRequestAdapter,
    response_adapter_class := sampleResponseAdapter }

/-- **C3**: `register_framework_support` raises an error if and only if the
name is `None`/empty, or one of the three mandatory classes is not a subclass
of its expected base, or a non-`None` `app_configurator` is not a subclass of
`FrameworkConfigurator`; the check happens before the registry is touched (on
error no updated map is produced at all), and otherwise the entry is stored
under the lower-cased name. -/
theorem register_framework_support_error_iff (debug : Bool) (m : FrameworkSupportMap)
    (name : Option String) (ac : Option PyClass) (aric rac resc : PyClass) :
    ((∃ e, register_framework_support debug m name ac aric rac resc = Except.error e) ↔
      (name = none ∨ name = some "" ∨
       issubclass rac ABC.requestAdapter = false ∨
       issubclass resc ABC.responseAdapter = false ∨
       issubclass aric ABC.appRequestInstrumentationConfigurator = false ∨
       ∃ c, ac = some c ∧ issubclass c ABC.frameworkConfigurator = false)) ∧
    (∀ n m' w, name = some n →
      register_framework_support debug m name ac aric rac resc = Except.ok (m', w) →
      List.lookup (pyLower n) m' = some
        { app_configurator := ac,
          app_request_instrumentation_configurator := aric,
          request_adapter_class := rac,
          response_adapter_class := resc }) := by
  constructor
  · constructor
    · -- error implies one of the failure conditions
      intro he
      by_contra hcon
      push_neg at hcon
      obtain ⟨hnone, hempty, h1, h2, h3, h4⟩ := hcon
      cases name with
      | none => exact hnone rfl
      | some n =>
        have hn : n ≠ "" := fun h => hempty (by rw [h])
        have h1t : issubclass rac ABC.requestAdapter = true := by
          cases hh : issubclass rac ABC.requestAdapter
          · exact absurd hh h1
          · rfl
        have h2t : issubclass resc ABC.responseAdapter = true := by
          cases hh : issubclass resc ABC.responseAdapter
          · exact absurd hh h2
          · rfl
        have h3t : issubclass aric ABC.appRequestInstrumentationConfigurator = true := by
          cases hh : issubclass aric ABC.appRequestInstrumentationConfigurator
          · exact absurd hh h3
          · rfl
        have h4t : ∀ c, ac = some c → issubclass c ABC.frameworkConfigurator = true := by
          intro c hc
          cases hh : issubclass c ABC.frameworkConfigurator
          · exact absurd hh (h4 c hc)
          · rfl
        obtain ⟨e, he⟩ := he
        rw [register_framework_support_ok debug m n ac aric rac resc hn h1t h2t h3t h4t] at he
        exact Except.noConfusion he
    · -- each failure condition yields an error
      intro h
      cases name with
      | none => exact ⟨_, rfl⟩
      | some n =>
        by_cases hn : n = ""
        · subst hn
          refine ⟨"framework name can not be null or empty", ?_⟩
          unfold register_framework_support
          dsimp only
          rw [if_pos rfl]
        · have h' : issubclass rac ABC.requestAdapter = false ∨
              issubclass resc ABC.responseAdapter = false ∨
              issubclass aric ABC.appRequestInstrumentationConfigurator = false ∨
              ∃ c, ac = some c ∧ issubclass c ABC.frameworkConfigurator = false := by
            rcases h with h | h | h | h | h | h
            · exact Option.noConfusion h
            · exact absurd (Option.some.inj h) hn
            · exact Or.inl h
            · exact Or.inr (Or.inl h)
            · exact Or.inr (Or.inr (Or.inl h))
            · exact Or.inr (Or.inr (Or.inr h))
          unfold register_framework_support
          dsimp only
          rw [if_neg hn]
          unfold validate_subclass
          cases h1 : issubclass rac ABC.requestAdapter with
          | false =>
            refine ⟨"subclass validation failed", ?_⟩
            simp [h1]
          | true =>
            rw [if_pos rfl]
            cases h2 : issubclass resc ABC.responseAdapter with
            | false =>
              refine ⟨"subclass validation failed", ?_⟩
              simp [h2]
            | true =>
              rw [if_pos rfl]
              cases h3 : issubclass aric ABC.appRequestInstrumentationConfigurator with
              | false =>
                refine ⟨"subclass validation failed", ?_⟩
                simp [h3]
              | true =>
                rw [if_pos rfl]
                rcases h' with h' | h' | h' | ⟨c, hac, h4⟩
                · exact absurd h1 (by simp [h'])
                · exact absurd h2 (by simp [h'])
                · exact absurd h3 (by simp [h'])
                · subst hac
                  dsimp only
                  refine ⟨"subclass validation failed", ?_⟩
                  simp [h4]
  · -- on success the entry is stored under the lower-cased name
    intro n m' w hname hok
    subst hname
    rw [register_framework_support_ok_inv debug m n ac aric rac resc m' w hok]
    exact dictSet_lookup_self m (pyLower n) _

/-- Witness for `register_framework_support_error_iff`: registering `"Flask"`
over an empty map stores the entry under `"flask"`. -/
theorem register_framework_support_error_iff_witness :
    List.lookup "flask" [("flask", sampleEntry)] = some sampleEntry :=
  (register_framework_support_error_iff false [] (some "Flask") none
      sampleInstrConfigurator sampleRequestAdapter sampleResponseAdapter).2
    "Flask" [("flask", sampleEntry)] [] rfl (by rfl)

/-- A second entry, distinct from `sampleEntry`, used to exhibit overwriting. -/
def sampleEntry2 : FrameworkEntry :=
  { app_configurator := some sampleFrameworkConfigurator,
    app_request_instrumentation_configurator := sampleInstrConfigurator,
    request_adapter_class := sampleRequestAdapter,
    response_adapter_class := sampleResponseAdapter }

/-- **C4** counterexample: with the `ENABLE_JSON_LOGGING_DEBUG` flag off (its
value is read from the environment), re-registering the already-present name
`"flask"` (here spelled `"Flask"`) succeeds and overwrites the entry, but the
emitted warning list is empty — the re-registration is *not* logged as a
warning, contradicting the claim as stated. -/
theorem register_reregistration_warning_counterexample :
    register_framework_support false [("flask", sampleEntry)] (some "Flask")
        (some sampleFrameworkConfigurator) sampleInstrConfigurator
        sampleRequestAdapter sampleResponseAdapter
      = Except.ok ([("flask", sampleEntry2)], []) := by rfl

/-- **C4** (amended): re-registering an already-present name (in any letter
case) never raises, overwrites the prior entry with the newly supplied
classes, and logs the re-registration warning exactly when
`ENABLE_JSON_LOGGING_DEBUG` is enabled. -/
theorem register_reregistration_overwrites (debug : Bool) (m : FrameworkSupportMap)
    (n : String) (ac : Option PyClass) (aric rac resc : PyClass)
    (hn : n ≠ "")
    (hpresent : (List.lookup (pyLower n) m).isSome = true)
    (h1 : issubclass rac ABC.requestAdapter = true)
    (h2 : issubclass resc ABC.responseAdapter = true)
    (h3 : issubclass aric ABC.appRequestInstrumentationConfigurator = true)
    (h4 : ∀ c, ac = some c → issubclass c ABC.frameworkConfigurator = true) :
    register_framework_support debug m (some n) ac aric rac resc =
      Except.ok (dictSet m (pyLower n)
        { app_configurator := ac,
          app_request_instrumentation_configurator := aric,
          request_adapter_class := rac,
          response_adapter_class := resc },
        if debug then ["Re-register framework " ++ pyLower n] else []) ∧
    List.lookup (pyLower n) (dictSet m (pyLower n)
        { app_configurator := ac,
          app_request_instrumentation_configurator := aric,
          request_adapter_class := rac,
          response_adapter_class := resc }) = some
        { app_configurator := ac,
          app_request_instrumentation_configurator := aric,
          request_adapter_class := rac,
          response_adapter_class := resc } := by
  constructor
  · rw [register_framework_support_ok debug m n ac aric rac resc hn h1 h2 h3 h4]
    rw [hpresent]
    simp
  · exact dictSet_lookup_self m (pyLower n) _

/-- Witness for `register_reregistration_overwrites`: re-registering
`"Flask"` over a map that already binds `"flask"`, with the debug flag on. -/
theorem register_reregistration_overwrites_witness :
    register_framework_support true [("flask", sampleEntry)] (some "Flask")
        (some sampleFrameworkConfigurator) sampleInstrConfigurator
        sampleRequestAdapter sampleResponseAdapter
      = Except.ok ([("flask", sampleEntry2)], ["Re-register framework flask"]) ∧
    List.lookup "flask" [("flask", sampleEntry2)] = some sampleEntry2 :=
  register_reregistration_overwrites true [("flask", sampleEntry)] "Flask"
    (some sampleFrameworkConfigurator) sampleInstrConfigurator
    sampleRequestAdapter sampleResponseAdapter
    (by decide) (by rfl) (by rfl) (by rfl) (by rfl)
    (fun c hc => by cases hc; rfl)

/-- **C9**: registration is case-insensitive — registering under `N` yields
exactly the same result (registry state, warnings, error or not) as
registering under `N.lower()` with the same classes. -/
theorem register_framework_support_case_insensitive (debug : Bool)
    (m : FrameworkSupportMap) (n : String) (ac : Option PyClass)
    (aric rac resc : PyClass) :
    register_framework_support debug m (some n) ac aric rac resc =
      register_framework_support debug m (some (pyLower n)) ac aric rac resc := by
  unfold register_framework_support
  dsimp only
  by_cases hn : n = ""
  · subst hn; rfl
  · rw [if_neg hn, if_neg (fun h => hn ((pyLower_eq_empty n).mp h))]
    rw [pyLower_idem]

/-- **C10**: frame condition — a successful registration changes only the
binding of the lower-cased name; every other key keeps its prior value. -/
theorem register_framework_support_frame (debug : Bool) (m : FrameworkSupportMap)
    (n : String) (ac : Option PyClass) (aric rac resc : PyClass)
    (m' : FrameworkSupportMap) (w : List String) (K : String)
    (hok : register_framework_support debug m (some n) ac aric rac resc = Except.ok (m', w))
    (hK : K ≠ pyLower n) :
    List.lookup K m' = List.lookup K m := by
  rw [register_framework_support_ok_inv debug m n ac aric rac resc m' w hok]
  exact dictSet_lookup_other m (pyLower n) K _ hK

/-- Witness for `register_framework_support_frame`: registering `"Flask"`
over a map that binds `"sanic"` leaves the `"sanic"` entry unchanged. -/
theorem register_framework_support_frame_witness :
    List.lookup "sanic" [("sanic", sampleEntry), ("flask", sampleEntry)]
      = List.lookup "sanic" [("sanic", sampleEntry)] :=
  register_framework_support_frame false [("sanic", sampleEntry)] "Flask" none
    sampleInstrConfigurator sampleRequestAdapter sampleResponseAdapter
    [("sanic", sampleEntry), ("flask", sampleEntry)] [] "sanic"
    (by rfl) (by decide)

/-! ## JSON values

The log formatter produces one JSON object per record.  Objects are
association lists of string keys; values are the strings, string lists
(tags) and nested objects (the `props` bag) that the library emits. -/

inductive JVal where
  | str (s : String)
  | arr (xs : List String)
  | num (n : Nat)
  | obj (m : List (String × JVal))

/-- A JSON object: ordered key/value pairs. -/
abbrev JObj := List (String × JVal)

/-! ## ISO-8601 timestamps

Modelled from the spec: the formatter stamps every record with `written_at`,
"an ISO-8601 timestamp" (§4.5); the timestamp-rendering code is not under
`src/`.  A wall-clock reading is a structured `DateTime`; rendering pads each
component with leading zeros exactly as `strftime("%Y-%m-%dT%H:%M:%S.%f")`
does for in-range components (out-of-range components are truncated to the
field width). -/

structure DateTime where
  year : Nat
  month : Nat
  day : Nat
  hour : Nat
  minute : Nat
  second : Nat
  micro : Nat

/-- The ASCII digit character for `n % 10`. -/
def digitChar (n : Nat) : Char := Char.ofNat (48 + n % 10)

def pad2 (n : Nat) : List Char := [digitChar (n / 10), digitChar n]

def pad4 (n : Nat) : List Char :=
  [digitChar (n / 1000), digitChar (n / 100), digitChar (n / 10), digitChar n]

def pad6 (n : Nat) : List Char :=
  [digitChar (n / 100000), digitChar (n / 10000), digitChar (n / 1000),
   digitChar (n / 100), digitChar (n / 10), digitChar n]

/-- Render a `DateTime` as `YYYY-MM-DDTHH:MM:SS.ffffffZ`. -/
def renderTimestamp (t : DateTime) : String :=
  ⟨pad4 t.year ++ '-' :: pad2 t.month ++ '-' :: pad2 t.day ++
   'T' :: pad2 t.hour ++ ':' :: pad2 t.minute ++ ':' :: pad2 t.second ++
   '.' :: pad6 t.micro ++ ['Z']⟩

/-- An ASCII decimal digit. -/
def isAsciiDigit (c : Char) : Bool := decide (48 ≤ c.toNat ∧ c.toNat ≤ 57)

/-- The ISO-8601 textual shape the test suite checks `written_at` against:
four digits, `-`, two digits, `-`, two digits, `T`, two digits, `:`, two
digits, `:`, two digits, optionally followed by `.`, at least one digit and
arbitrary trailing text. -/
def isIso8601Timestamp (s : String) : Bool :=
  match s.data with
  | y1 :: y2 :: y3 :: y4 :: '-' :: mo1 :: mo2 :: '-' :: d1 :: d2 ::
    'T' :: h1 :: h2 :: ':' :: mi1 :: mi2 :: ':' :: s1 :: s2 :: rest =>
    [y1, y2, y3, y4, mo1, mo2, d1, d2, h1, h2, mi1, mi2, s1, s2].all isAsciiDigit &&
    (match rest with
     | [] => true
     | '.' :: f1 :: _ => isAsciiDigit f1
     | _ => false)
  | _ => false

theorem isAsciiDigit_digitChar (n : Nat) : isAsciiDigit (digitChar n) = true := by
  have hlt : n % 10 < 10 := Nat.mod_lt _ (by decide)
  have hv : (48 + n % 10).isValidChar := by
    constructor; omega
  unfold isAsciiDigit digitChar
  rw [char_toNat_ofNat _ hv]
  exact decide_eq_true_iff.mpr (by omega)

theorem renderTimestamp_iso8601 (t : DateTime) :
    isIso8601Timestamp (renderTimestamp t) = true := by
  unfold renderTimestamp isIso8601Timestamp pad4 pad2 pad6
  dsimp only [List.cons_append, List.nil_append]
  simp [isAsciiDigit_digitChar]

/-! ## Version-4 UUIDs

Modelled from the spec: correlation-id generation uses `uuid.uuid4()`
(§4.1: "if absent or empty, generate a version-4 UUID"); the generating code
is not under `src/`.  The randomness is made explicit: a `uuid4` is a
deterministic function of the 32 random nibbles drawn for it, with the
version nibble forced to `4` and the variant nibble forced into `8`–`b`,
rendered as lower-case hex in the canonical 8-4-4-4-12 shape. -/

/-- Lower-case hex digit for `n % 16`. -/
def hexChar (n : Nat) : Char :=
  Char.ofNat (if n % 16 < 10 then 48 + n % 16 else 87 + n % 16)

/-- The `i`-th random nibble of the draw `r` (missing entries read as 0). -/
def nibble (r : List Nat) (i : Nat) : Nat := (r.getD i 0) % 16

/-- The canonical textual form of the version-4 UUID built from the random
nibbles `r`. -/
def uuid4 (r : List Nat) : String :=
  ⟨hexChar (nibble r 0) :: hexChar (nibble r 1) :: hexChar (nibble r 2) ::
   hexChar (nibble r 3) :: hexChar (nibble r 4) :: hexChar (nibble r 5) ::
   hexChar (nibble r 6) :: hexChar (nibble r 7) :: '-' ::
   hexChar (nibble r 8) :: hexChar (nibble r 9) :: hexChar (nibble r 10) ::
   hexChar (nibble r 11) :: '-' ::
   '4' :: hexChar (nibble r 13) :: hexChar (nibble r 14) :: hexChar (nibble r 15) :: '-' ::
   hexChar (8 + nibble r 16 % 4) :: hexChar (nibble r 17) :: hexChar (nibble r 18) ::
   hexChar (nibble r 19) :: '-' ::
   hexChar (nibble r 20) :: hexChar (nibble r 21) :: hexChar (nibble r 22) ::
   hexChar (nibble r 23) :: hexChar (nibble r 24) :: hexChar (nibble r 25) ::
   hexChar (nibble r 26) :: hexChar (nibble r 27) :: hexChar (nibble r 28) ::
   hexChar (nibble r 29) :: hexChar (nibble r 30) :: hexChar (nibble r 31) :: []⟩

/-- A lower-case hex digit. -/
def isHexLower (c : Char) : Bool :=
  decide ((48 ≤ c.toNat ∧ c.toNat ≤ 57) ∨ (97 ≤ c.toNat ∧ c.toNat ≤ 102))

/-- The version-4 UUID textual pattern: `xxxxxxxx-xxxx-4xxx-Nxxx-xxxxxxxxxxxx`
with `x` a lower-case hex digit and `N` one of `8`, `9`, `a`, `b`. -/
def matchesUuid4 (s : String) : Bool :=
  match s.data with
  | a1 :: a2 :: a3 :: a4 :: a5 :: a6 :: a7 :: a8 :: g1 ::
    b1 :: b2 :: b3 :: b4 :: g2 ::
    v :: c1 :: c2 :: c3 :: g3 ::
    w :: d1 :: d2 :: d3 :: g4 ::
    e1 :: e2 :: e3 :: e4 :: e5 :: e6 :: e7 :: e8 :: e9 :: e10 :: e11 :: e12 :: [] =>
    (g1 == '-') && (g2 == '-') && (g3 == '-') && (g4 == '-') && (v == '4') &&
    ((w == '8') || (w == '9') || (w == 'a') || (w == 'b')) &&
    [a1, a2, a3, a4, a5, a6, a7, a8, b1, b2, b3, b4, c1, c2, c3,
     d1, d2, d3, e1, e2, e3, e4, e5, e6, e7, e8, e9, e10, e11, e12].all isHexLower
  | _ => false

theorem isHexLower_hexChar (n : Nat) : isHexLower (hexChar n) = true := by
  have hlt : n % 16 < 16 := Nat.mod_lt _ (by decide)
  unfold isHexLower hexChar
  by_cases h : n % 16 < 10
  · rw [if_pos h]
    rw [char_toNat_ofNat _ (by constructor; omega)]
    exact decide_eq_true_iff.mpr (Or.inl (by omega))
  · rw [if_neg h]
    rw [char_toNat_ofNat _ (by constructor; omega)]
    exact decide_eq_true_iff.mpr (Or.inr (by omega))

theorem variant_hexChar (k : Nat) :
    ((hexChar (8 + k % 4) == '8') || (hexChar (8 + k % 4) == '9') ||
     (hexChar (8 + k % 4) == 'a') || (hexChar (8 + k % 4) == 'b')) = true := by
  have hlt : k % 4 < 4 := Nat.mod_lt _ (by decide)
  set j := k % 4 with hj
  interval_cases j <;> decide

theorem uuid4_matches (r : List Nat) : matchesUuid4 (uuid4 r) = true := by
  unfold uuid4 matchesUuid4
  dsimp only
  simp only [List.all_cons, List.all_nil, isHexLower_hexChar, Bool.and_true, Bool.true_and]
  simp only [beq_self_eq_true, Bool.true_and]
  have := variant_hexChar (nibble r 16)
  simp only [Bool.or_eq_true, beq_iff_eq] at this ⊢
  tauto

/-! ## Log records and the JSON log formatter

Modelled from the spec (§4.5, the formatter module is not under `src/`):
given a log record and the active correlation context, the formatter
produces one JSON object with at least `written_at`, `level`, `logger`,
`module`, `msg`, `type` and `correlation_id`; extra properties under the
reserved `props` key are merged at the top level, other extra keys are
merged directly; an attached exception adds `exc_info` (the full formatted
trace text) and `filename` (the source location of the log call). -/

/-- An exception captured with a record: its type name, message and the
formatted stack-frame lines. -/
structure ExcInfo where
  typeName : String
  message : String
  frames : List String

/-- The view of a Python `logging.LogRecord` the formatter consumes. -/
structure LogRecord where
  levelname : String
  loggerName : String
  moduleName : String
  msg : String
  filename : String
  extra : JObj
  exc : Option ExcInfo

/-- Modelled from the spec: the "full formatted trace text" produced for an
attached exception, in the shape Python's `traceback.format_exception`
yields: a `Traceback (most recent call last):` header line, the frame lines,
and a final `TypeName: message` line. -/
def formatException (e : ExcInfo) : String :=
  "Traceback (most recent call last):\n" ++
  String.intercalate "\n" e.frames ++ "\n" ++
  e.typeName ++ ": " ++ e.message

/-- The contents of the reserved `props` key of `extra`, if present. -/
def extractProps (extra : JObj) : JObj :=
  match List.lookup "props" extra with
  | some (JVal.obj m) => m
  | _ => []

/-- Merge the extra properties of a record at the top level: properties found
under the reserved `props` key first, then all other extra keys directly. -/
def mergeExtras (extra : JObj) : JObj :=
  extractProps extra ++ extra.filter (fun kv => kv.1 ≠ "props")

/-- Modelled from the spec: the JSON object the formatter produces for an
application log record (`type` is `"log"`), given the wall-clock reading `t`
and the correlation id `cid` of the active correlation context. -/
def formatLogRecord (t : DateTime) (cid : String) (r : LogRecord) : JObj :=
  [("written_at", JVal.str (renderTimestamp t)),
   ("type", JVal.str "log"),
   ("logger", JVal.str r.loggerName),
   ("module", JVal.str r.moduleName),
   ("level", JVal.str r.levelname),
   ("msg", JVal.str r.msg),
   ("correlation_id", JVal.str cid)] ++
  (match r.exc with
   | some e => [("exc_info", JVal.str (formatException e)),
                ("filename", JVal.str r.filename)]
   | none => []) ++
  mergeExtras r.extra

/-! ## Requests, correlation-id resolution and request instrumentation

Modelled from the spec (§4.1, §4.4, §6; the instrumentation module is not
under `src/`). -/

/-- An inbound HTTP request as the adapters see it. -/
structure Request where
  headers : List (String × String)
  path : String
  method : String
  remoteAddr : String

/-- The default inbound correlation header (§6). -/
def DEFAULT_CORRELATION_ID_HEADER : String := "X-Correlation-Id"

/-- Request-instrumentation configuration: the URL-exclusion patterns (each
compiled regular expression is its match predicate on the request path) and
the configurable correlation-header name. -/
structure InstrConfig where
  excludePatterns : List (String → Bool)
  headerName : String

/-- Read a named header of the request. -/
def getHeader (req : Request) (name : String) : Option String :=
  List.lookup name req.headers

/-- Modelled from the spec (§4.1): resolve the correlation id at request
start — adopt the inbound header value verbatim, except that an absent *or
empty* value makes the library generate a fresh id (`fresh` is the UUID the
generator would draw). -/
def resolveCorrelationId (cfg : InstrConfig) (req : Request) (fresh : String) : String :=
  match getHeader req cfg.headerName with
  | some v => if v = "" then fresh else v
  | none => fresh

/-- Does the request path match one of the configured exclusion patterns? -/
def isExcluded (cfg : InstrConfig) (req : Request) : Bool :=
  cfg.excludePatterns.any (fun p => p req.path)

/-- The correlation context during the handling of `req`: created at the
request-start hook, holding the resolved correlation id. -/
def requestContext (cfg : InstrConfig) (req : Request) (rand : List Nat) : Option String :=
  some (resolveCorrelationId cfg req (uuid4 rand))

/-- `json_logging.get_correlation_id()`: the id held by the active
correlation context, or the defined empty value outside request scope. -/
def get_correlation_id (ctx : Option String) : String := ctx.getD ""

/-- Modelled from the spec (§4.4): the request-completion log object emitted
by the after-request hook, carrying method, path, status code, duration,
correlation id and remote address on top of the mandatory fields
(`type` is `"request"`). -/
def formatRequestRecord (t : DateTime) (cid : String) (req : Request)
    (status : Nat) (durationMs : Nat) : JObj :=
  [("written_at", JVal.str (renderTimestamp t)),
   ("type", JVal.str "request"),
   ("logger", JVal.str "request-logger"),
   ("module", JVal.str "request-instrumentation"),
   ("level", JVal.str "INFO"),
   ("msg", JVal.str (req.method ++ " " ++ req.path)),
   ("correlation_id", JVal.str cid),
   ("method", JVal.str req.method),
   ("path", JVal.str req.path),
   ("status", JVal.num status),
   ("duration_ms", JVal.num durationMs),
   ("remote_address", JVal.str req.remoteAddr)]

/-- Modelled from the spec (§4.4): the log lines observable for one handled
request — the on-request-start hook resolves the correlation id (drawing
`rand` if it must generate one), every record the handler logs is formatted
against that id, and the after-request hook appends exactly one completion
line unless the path matches an exclusion pattern. -/
def handleRequest (cfg : InstrConfig) (req : Request) (rand : List Nat)
    (t : DateTime) (status : Nat) (durationMs : Nat)
    (records : List LogRecord) : List JObj :=
  let cid := resolveCorrelationId cfg req (uuid4 rand)
  records.map (formatLogRecord t cid) ++
  (if isExcluded cfg req then [] else [formatRequestRecord t cid req status durationMs])

/-! ### Field-lookup helpers -/

theorem lookup_formatLogRecord_correlation (t : DateTime) (cid : String) (r : LogRecord) :
    List.lookup "correlation_id" (formatLogRecord t cid r) = some (JVal.str cid) := by
  simp [formatLogRecord, List.lookup]

theorem lookup_formatRequestRecord_correlation (t : DateTime) (cid : String)
    (req : Request) (status durationMs : Nat) :
    List.lookup "correlation_id" (formatRequestRecord t cid req status durationMs)
      = some (JVal.str cid) := by
  simp [formatRequestRecord, List.lookup]

theorem lookup_formatLogRecord_type (t : DateTime) (cid : String) (r : LogRecord) :
    List.lookup "type" (formatLogRecord t cid r) = some (JVal.str "log") := by
  simp [formatLogRecord, List.lookup]

theorem lookup_formatRequestRecord_type (t : DateTime) (cid : String)
    (req : Request) (status durationMs : Nat) :
    List.lookup "type" (formatRequestRecord t cid req status durationMs)
      = some (JVal.str "request") := by
  simp [formatRequestRecord, List.lookup]

/-! ### Substring containment and line counting (for the trace text) -/

/-- Does the pattern match at the head of the list? -/
def matchAt : List Char → List Char → Bool
  | [], _ => true
  | _ :: _, [] => false
  | p :: ps, c :: cs => (p == c) && matchAt ps cs

/-- Does the pattern occur anywhere inside the list? -/
def hasSubList (l p : List Char) : Bool :=
  match l with
  | [] => matchAt p []
  | _ :: t => matchAt p l || hasSubList t p

/-- Python `pat in s`: substring containment. -/
def containsSubstr (s pat : String) : Bool := hasSubList s.data pat.data

theorem matchAt_self_append (p r : List Char) : matchAt p (p ++ r) = true := by
  induction p with
  | nil => rfl
  | cons a t ih => simp [matchAt, ih]

theorem hasSubList_append_of_right (x : List Char) {l p : List Char}
    (h : hasSubList l p = true) : hasSubList (x ++ l) p = true := by
  induction x with
  | nil => exact h
  | cons a t ih => simp [hasSubList, ih]

theorem hasSubList_self_append (p r : List Char) : hasSubList (p ++ r) p = true := by
  cases p with
  | nil =>
    cases r with
    | nil => rfl
    | cons a t => simp [hasSubList, matchAt]
  | cons a t =>
    have h := matchAt_self_append (a :: t) r
    simp only [List.cons_append] at h
    simp [hasSubList, h]

/-- The number of lines of a string (one more than the newline count). -/
def lineCount (s : String) : Nat := s.data.count '\n' + 1

theorem formatException_has_traceback (e : ExcInfo) :
    containsSubstr (formatException e) "Traceback" = true := by
  unfold containsSubstr formatException
  rw [String.data_append, String.data_append, String.data_append, String.data_append,
    String.data_append]
  have hH : ("Traceback (most recent call last):\n").data
      = "Traceback".data ++ " (most recent call last):\n".data := by decide
  rw [hH]
  rw [List.append_assoc, List.append_assoc, List.append_assoc, List.append_assoc,
    List.append_assoc]
  exact hasSubList_self_append _ _

theorem formatException_has_typeName (e : ExcInfo) :
    containsSubstr (formatException e) e.typeName = true := by
  unfold containsSubstr formatException
  rw [String.data_append, String.data_append, String.data_append, String.data_append,
    String.data_append]
  rw [List.append_assoc, List.append_assoc, List.append_assoc, List.append_assoc]
  exact hasSubList_append_of_right _
    (hasSubList_append_of_right _
      (hasSubList_append_of_right _ (hasSubList_self_append _ _)))

theorem formatException_multiline (e : ExcInfo) :
    1 < lineCount (formatException e) := by
  unfold lineCount formatException
  rw [String.data_append, String.data_append, String.data_append, String.data_append,
    String.data_append]
  rw [List.count_append, List.count_append, List.count_append, List.count_append,
    List.count_append]
  have h1 : ("Traceback (most recent call last):\n").data.count '\n' = 1 := by decide
  omega

/-- **C8**: logging a record with an attached exception adds `exc_info`, the
full formatted trace text — which contains the literal substring
`"Traceback"`, contains the exception type name, and spans more than one
line — and `filename`, the source location of the log call. -/
theorem exception_logged_with_stack_trace (t : DateTime) (cid : String)
    (r : LogRecord) (e : ExcInfo) :
    List.lookup "exc_info" (formatLogRecord t cid { r with exc := some e })
      = some (JVal.str (formatException e)) ∧
    List.lookup "filename" (formatLogRecord t cid { r with exc := some e })
      = some (JVal.str r.filename) ∧
    containsSubstr (formatException e) "Traceback" = true ∧
    containsSubstr (formatException e) e.typeName = true ∧
    1 < lineCount (formatException e) :=
  ⟨by simp [formatLogRecord, List.lookup],
   by simp [formatLogRecord, List.lookup],
   formatException_has_traceback e,
   formatException_has_typeName e,
   formatException_multiline e⟩

/-- **C6**: every JSON object the formatter produces — for any record, hence
for every log level, and likewise for the request-completion line — contains
the keys `written_at`, `level`, `logger`, `module`, `msg`, `type` and
`correlation_id`, with `type` one of `"log"`/`"request"`, and the
`written_at` value is an ISO-8601 timestamp. -/
theorem formatter_mandatory_fields (t : DateTime) (cid : String) (r : LogRecord)
    (req : Request) (status durationMs : Nat) :
    List.lookup "written_at" (formatLogRecord t cid r)
        = some (JVal.str (renderTimestamp t)) ∧
    List.lookup "level" (formatLogRecord t cid r) = some (JVal.str r.levelname) ∧
    List.lookup "logger" (formatLogRecord t cid r) = some (JVal.str r.loggerName) ∧
    List.lookup "module" (formatLogRecord t cid r) = some (JVal.str r.moduleName) ∧
    List.lookup "msg" (formatLogRecord t cid r) = some (JVal.str r.msg) ∧
    List.lookup "type" (formatLogRecord t cid r) = some (JVal.str "log") ∧
    List.lookup "correlation_id" (formatLogRecord t cid r) = some (JVal.str cid) ∧
    List.lookup "written_at" (formatRequestRecord t cid req status durationMs)
        = some (JVal.str (renderTimestamp t)) ∧
    List.lookup "level" (formatRequestRecord t cid req status durationMs)
        = some (JVal.str "INFO") ∧
    (List.lookup "logger" (formatRequestRecord t cid req status durationMs)).isSome = true ∧
    (List.lookup "module" (formatRequestRecord t cid req status durationMs)).isSome = true ∧
    (List.lookup "msg" (formatRequestRecord t cid req status durationMs)).isSome = true ∧
    List.lookup "type" (formatRequestRecord t cid req status durationMs)
        = some (JVal.str "request") ∧
    List.lookup "correlation_id" (formatRequestRecord t cid req status durationMs)
        = some (JVal.str cid) ∧
    isIso8601Timestamp (renderTimestamp t) = true := by
  refine ⟨?_, ?_, ?_, ?_, ?_, ?_, ?_, ?_, ?_, ?_, ?_, ?_, ?_, ?_, renderTimestamp_iso8601 t⟩
  all_goals simp [formatLogRecord, formatRequestRecord, List.lookup]

/-- **C7**: the two shapes of `extra` — properties wrapped in the reserved
`props` key and the same properties given directly — produce equal formatter
output, and either shape surfaces the property as a top-level key of the
JSON object (shown for the key `"k"` with value `"v"`). -/
theorem extra_props_round_trip (t : DateTime) (cid : String) (r : LogRecord)
    (k : String) (v : JVal) (hk : k ≠ "props") :
    formatLogRecord t cid { r with extra := [("props", JVal.obj [(k, v)])] } =
      formatLogRecord t cid { r with extra := [(k, v)] } ∧
    List.lookup "k" (formatLogRecord t cid
        { r with extra := [("props", JVal.obj [("k", JVal.str "v")])] })
      = some (JVal.str "v") ∧
    List.lookup "k" (formatLogRecord t cid { r with extra := [("k", JVal.str "v")] })
      = some (JVal.str "v") := by
  have hkb : (("props" : String) == k) = false :=
    beq_eq_false_iff_ne.mpr (Ne.symm hk)
  refine ⟨?_, ?_, ?_⟩
  · unfold formatLogRecord mergeExtras extractProps
    simp [List.lookup, List.filter, hkb, hk]
  · cases hexc : r.exc <;>
      simp [formatLogRecord, mergeExtras, extractProps, List.lookup, List.filter, hexc]
  · cases hexc : r.exc <;>
      simp [formatLogRecord, mergeExtras, extractProps, List.lookup, List.filter, hexc]

/-! ### Concrete sample data, for witnesses and counterexamples -/

/-- A fixed wall-clock reading. -/
def t0 : DateTime := { year := 2026, month := 10, day := 12,
                       hour := 9, minute := 30, second := 5, micro := 123456 }

/-- A plain debug record, as the test endpoint `/log/levels/debug` logs it. -/
def rec0 : LogRecord :=
  { levelname := "DEBUG", loggerName := "fastapi-test",
    moduleName := "test_fastapi", msg := "debug message",
    filename := "test_fastapi.py", extra := [], exc := none }

/-- A request without a correlation header. -/
def req0 : Request :=
  { headers := [], path := "/log/levels/debug", method := "GET",
    remoteAddr := "127.0.0.1" }

/-- A request whose `X-Correlation-Id` header is present but empty. -/
def reqEmptyHeader : Request :=
  { headers := [("X-Correlation-Id", "")], path := "/log/levels/debug",
    method := "GET", remoteAddr := "127.0.0.1" }

/-- A request carrying `X-Correlation-Id: abc-def`. -/
def reqWithCid : Request :=
  { headers := [("X-Correlation-Id", "abc-def")], path := "/log/levels/debug",
    method := "GET", remoteAddr := "127.0.0.1" }

/-- Witness for `extra_props_round_trip`, at the extra property of the test
suite (`extra_property`/`extra_value`). -/
theorem extra_props_round_trip_witness :
    formatLogRecord t0 "abc-def"
        { rec0 with extra := [("props", JVal.obj [("extra_property", JVal.str "extra_value")])] } =
      formatLogRecord t0 "abc-def"
        { rec0 with extra := [("extra_property", JVal.str "extra_value")] } ∧
    List.lookup "k" (formatLogRecord t0 "abc-def"
        { rec0 with extra := [("props", JVal.obj [("k", JVal.str "v")])] })
      = some (JVal.str "v") ∧
    List.lookup "k" (formatLogRecord t0 "abc-def" { rec0 with extra := [("k", JVal.str "v")] })
      = some (JVal.str "v") :=
  extra_props_round_trip t0 "abc-def" rec0 "extra_property" (JVal.str "extra_value")
    (by decide)

/-! ### Request-completion counting (C5) -/

/-- Is this JSON object a request-completion line? -/
def isRequestLine (o : JObj) : Bool :=
  match List.lookup "type" o with
  | some (JVal.str s) => s == "request"
  | _ => false

/-- How many request-completion lines a batch of log lines contains. -/
def completionCount (lines : List JObj) : Nat :=
  (lines.filter isRequestLine).length

theorem isRequestLine_formatLogRecord (t : DateTime) (cid : String) (r : LogRecord) :
    isRequestLine (formatLogRecord t cid r) = false := by
  unfold isRequestLine
  rw [lookup_formatLogRecord_type]
  rfl

theorem isRequestLine_formatRequestRecord (t : DateTime) (cid : String)
    (req : Request) (status durationMs : Nat) :
    isRequestLine (formatRequestRecord t cid req status durationMs) = true := by
  unfold isRequestLine
  rw [lookup_formatRequestRecord_type]
  rfl

theorem filter_isRequestLine_map (rs : List LogRecord) (t : DateTime) (cid : String) :
    (rs.map (formatLogRecord t cid)).filter isRequestLine = [] := by
  induction rs with
  | nil => rfl
  | cons r rs ih =>
    simp only [List.map_cons, List.filter_cons, isRequestLine_formatLogRecord,
      Bool.false_eq_true, if_neg]
    exact ih

/-- **C5**: a request whose path matches at least one configured exclusion
pattern produces zero request-completion log lines; a request matching no
pattern produces exactly one. -/
theorem request_completion_count (cfg : InstrConfig) (req : Request)
    (rand : List Nat) (t : DateTime) (status durationMs : Nat)
    (records : List LogRecord) :
    completionCount (handleRequest cfg req rand t status durationMs records) =
      if isExcluded cfg req then 0 else 1 := by
  unfold handleRequest completionCount
  dsimp only
  rw [List.filter_append, filter_isRequestLine_map]
  cases hex : isExcluded cfg req with
  | true => rfl
  | false =>
    simp only [List.nil_append, List.filter_cons, isRequestLine_formatRequestRecord]
    rfl

/-! ### Correlation-id claims (C1, C2) -/

/-- **C2**: for a request without the `X-Correlation-Id` header, the
generated correlation id matches the version-4 UUID textual pattern, and
that same generated value appears on every log line emitted for the request
(the handler's lines and the completion line alike). -/
theorem correlation_id_generated (pats : List (String → Bool)) (req : Request)
    (rand : List Nat) (t : DateTime) (status durationMs : Nat)
    (records : List LogRecord)
    (h : getHeader req DEFAULT_CORRELATION_ID_HEADER = none) :
    matchesUuid4 (uuid4 rand) = true ∧
    resolveCorrelationId ⟨pats, DEFAULT_CORRELATION_ID_HEADER⟩ req (uuid4 rand)
      = uuid4 rand ∧
    ∀ o ∈ handleRequest ⟨pats, DEFAULT_CORRELATION_ID_HEADER⟩ req rand t status
        durationMs records,
      List.lookup "correlation_id" o = some (JVal.str (uuid4 rand)) := by
  have hres : resolveCorrelationId ⟨pats, DEFAULT_CORRELATION_ID_HEADER⟩ req (uuid4 rand)
      = uuid4 rand := by
    unfold resolveCorrelationId
    rw [show (⟨pats, DEFAULT_CORRELATION_ID_HEADER⟩ : InstrConfig).headerName
        = DEFAULT_CORRELATION_ID_HEADER from rfl, h]
  refine ⟨uuid4_matches rand, hres, ?_⟩
  intro o ho
  unfold handleRequest at ho
  dsimp only at ho
  rw [hres] at ho
  rcases List.mem_append.mp ho with hm | hm
  · obtain ⟨r, _, rfl⟩ := List.mem_map.mp hm
    exact lookup_formatLogRecord_correlation t (uuid4 rand) r
  · cases hex : isExcluded ⟨pats, DEFAULT_CORRELATION_ID_HEADER⟩ req with
    | true => rw [hex] at hm; simp at hm
    | false =>
      rw [hex, if_neg (show ¬(false = true) by decide)] at hm
      rcases List.mem_singleton.mp hm with rfl
      exact lookup_formatRequestRecord_correlation t (uuid4 rand) req status durationMs

/-- Witness for `correlation_id_generated`: the request of
`test_correlation_id_generated` (no correlation header), one handler log. -/
theorem correlation_id_generated_witness :
    matchesUuid4 (uuid4 []) = true ∧
    resolveCorrelationId ⟨[], DEFAULT_CORRELATION_ID_HEADER⟩ req0 (uuid4 []) = uuid4 [] ∧
    ∀ o ∈ handleRequest ⟨[], DEFAULT_CORRELATION_ID_HEADER⟩ req0 [] t0 200 5 [rec0],
      List.lookup "correlation_id" o = some (JVal.str (uuid4 [])) :=
  correlation_id_generated [] req0 [] t0 200 5 [rec0] rfl

/-- **C1** counterexample: a request carrying the `X-Correlation-Id` header
with value `V = ""` — per §4.1 an *empty* inbound value triggers generation,
so `V` is not adopted verbatim: the log line of such a request carries a
freshly generated UUID, not `""`. -/
theorem correlation_id_verbatim_counterexample :
    getHeader reqEmptyHeader DEFAULT_CORRELATION_ID_HEADER = some "" ∧
    List.lookup "correlation_id"
        ((handleRequest ⟨[], DEFAULT_CORRELATION_ID_HEADER⟩ reqEmptyHeader []
          t0 200 5 [rec0]).headD [])
      = some (JVal.str "00000000-0000-4000-8000-000000000000") ∧
    "00000000-0000-4000-8000-000000000000" ≠ "" :=
  ⟨rfl, rfl, by decide⟩

/-- **C1** (amended): for every request carrying a *non-empty* inbound
`X-Correlation-Id` value `V`, the value `V` is adopted verbatim as the
correlation id — observable via `get_correlation_id()` inside the handler —
and every log line emitted while handling the request has
`correlation_id = V`. -/
theorem correlation_id_adopted_verbatim (pats : List (String → Bool))
    (req : Request) (rand : List Nat) (t : DateTime) (status durationMs : Nat)
    (records : List LogRecord) (V : String)
    (hV : V ≠ "")
    (h : getHeader req DEFAULT_CORRELATION_ID_HEADER = some V) :
    get_correlation_id (requestContext ⟨pats, DEFAULT_CORRELATION_ID_HEADER⟩ req rand)
      = V ∧
    ∀ o ∈ handleRequest ⟨pats, DEFAULT_CORRELATION_ID_HEADER⟩ req rand t status
        durationMs records,
      List.lookup "correlation_id" o = some (JVal.str V) := by
  have hres : resolveCorrelationId ⟨pats, DEFAULT_CORRELATION_ID_HEADER⟩ req (uuid4 rand)
      = V := by
    unfold resolveCorrelationId
    rw [show (⟨pats, DEFAULT_CORRELATION_ID_HEADER⟩ : InstrConfig).headerName
        = DEFAULT_CORRELATION_ID_HEADER from rfl, h]
    dsimp only
    rw [if_neg hV]
  constructor
  · unfold get_correlation_id requestContext
    rw [hres]
    rfl
  · intro o ho
    unfold handleRequest at ho
    dsimp only at ho
    rw [hres] at ho
    rcases List.mem_append.mp ho with hm | hm
    · obtain ⟨r, _, rfl⟩ := List.mem_map.mp hm
      exact lookup_formatLogRecord_correlation t V r
    · cases hex : isExcluded ⟨pats, DEFAULT_CORRELATION_ID_HEADER⟩ req with
      | true => rw [hex] at hm; simp at hm
      | false =>
        rw [hex, if_neg (show ¬(false = true) by decide)] at hm
        rcases List.mem_singleton.mp hm with rfl
        exact lookup_formatRequestRecord_correlation t V req status durationMs

/-- Witness for `correlation_id_adopted_verbatim`: the request of
`test_correlation_id_given` (`X-Correlation-Id: abc-def`). -/
theorem correlation_id_adopted_verbatim_witness :
    get_correlation_id (requestContext ⟨[], DEFAULT_CORRELATION_ID_HEADER⟩ reqWithCid [])
      = "abc-def" ∧
    ∀ o ∈ handleRequest ⟨[], DEFAULT_CORRELATION_ID_HEADER⟩ reqWithCid [] t0 200 5 [rec0],
      List.lookup "correlation_id" o = some (JVal.str "abc-def") :=
  correlation_id_adopted_verbatim [] reqWithCid [] t0 200 5 [rec0] "abc-def"
    (by decide) rfl
